import Mathlib

/-!
# Shallow embedding of the RT4K-CEC responder core

This file embeds the CEC responder of `src/src/cec-task.c` and the logging
channel of `src/src/cec-log.c` into Lean and proves properties of the
embedding.  Pure C functions become Lean functions; the body of the
responder's `while (true)` loop becomes an explicit step function on a
state record, with the line driver (`cec_frame_send` / `cec_frame_recv`),
the DDC query and the PING acknowledgements supplied as parameters.
Machine integers are modelled as `Nat` with explicit `% 256` where a value
is stored into a `uint8_t`.
-/

namespace RT4K

/-! ## Opcode and operand constants

Modelled from the spec: the header `cec-id.h` is not among the sources;
the spec (§6) fixes the wire encoding to CEC 1.3a and its §8 scenarios pin
several values (`GIVE_OSD_NAME = 0x46`, `SET_OSD_NAME = 0x47`,
`GET_CEC_VERSION = 0x9F`, `CEC_VERSION = 0x9E`, `SET_STREAM_PATH = 0x86`,
`IMAGE_VIEW_ON = 0x04`, `ACTIVE_SOURCE = 0x82`, `MENU_STATUS = 0x8E`,
`FEATURE_ABORT = 0x00`, `USER_CONTROL_PRESSED = 0x44`); the remaining
constants are the CEC 1.3a opcode values. -/

def CEC_ID_FEATURE_ABORT : Nat := 0x00
def CEC_ID_IMAGE_VIEW_ON : Nat := 0x04
def CEC_ID_TEXT_VIEW_ON : Nat := 0x0d
def CEC_ID_STANDBY : Nat := 0x36
def CEC_ID_USER_CONTROL_PRESSED : Nat := 0x44
def CEC_ID_USER_CONTROL_RELEASED : Nat := 0x45
def CEC_ID_GIVE_OSD_NAME : Nat := 0x46
def CEC_ID_SET_OSD_NAME : Nat := 0x47
def CEC_ID_SYSTEM_AUDIO_MODE_REQUEST : Nat := 0x70
def CEC_ID_GIVE_AUDIO_STATUS : Nat := 0x71
def CEC_ID_SET_SYSTEM_AUDIO_MODE : Nat := 0x72
def CEC_ID_REPORT_AUDIO_STATUS : Nat := 0x7a
def CEC_ID_GIVE_SYSTEM_AUDIO_MODE_STATUS : Nat := 0x7d
def CEC_ID_SYSTEM_AUDIO_MODE_STATUS : Nat := 0x7e
def CEC_ID_ROUTING_CHANGE : Nat := 0x80
def CEC_ID_ACTIVE_SOURCE : Nat := 0x82
def CEC_ID_GIVE_PHYSICAL_ADDRESS : Nat := 0x83
def CEC_ID_REPORT_PHYSICAL_ADDRESS : Nat := 0x84
def CEC_ID_REQUEST_ACTIVE_SOURCE : Nat := 0x85
def CEC_ID_SET_STREAM_PATH : Nat := 0x86
def CEC_ID_DEVICE_VENDOR_ID : Nat := 0x87
def CEC_ID_GIVE_DEVICE_VENDOR_ID : Nat := 0x8c
def CEC_ID_MENU_REQUEST : Nat := 0x8d
def CEC_ID_MENU_STATUS : Nat := 0x8e
def CEC_ID_GIVE_DEVICE_POWER_STATUS : Nat := 0x8f
def CEC_ID_REPORT_POWER_STATUS : Nat := 0x90
def CEC_ID_GET_MENU_LANGUAGE : Nat := 0x91
def CEC_ID_INACTIVE_SOURCE : Nat := 0x9d
def CEC_ID_CEC_VERSION : Nat := 0x9e
def CEC_ID_GET_CEC_VERSION : Nat := 0x9f
def CEC_ID_VENDOR_COMMAND_WITH_ID : Nat := 0xa0
def CEC_ID_REQUEST_ARC_INITIATION : Nat := 0xc3
def CEC_ID_ABORT : Nat := 0xff

/-- Modelled from the spec: `cec_menu_t` lives in the missing `cec-id.h`;
the §4.1 dispatch table fixes the operand mapping
`{0 → activate, 1 → deactivate, 2 → query}`. -/
def CEC_MENU_ACTIVATE : Nat := 0x00

def CEC_MENU_DEACTIVATE : Nat := 0x01

def CEC_MENU_QUERY : Nat := 0x02

/-- Modelled from the spec: `cec_abort_t` lives in the missing `cec-id.h`;
scenario 4 of §8 pins `UNRECOGNIZED = 0x00`, and the 6-entry reason table
of §4.3 (mirrored by the designated initializers of
`cec_feature_abort_reason` in `cec-log.c`) orders the reasons
`UNRECOGNIZED, INCORRECT_MODE, NO_SOURCE, INVALID, REFUSED, UNDETERMINED`
as indices 0..5. -/
def CEC_ABORT_UNRECOGNIZED : Nat := 0x00

def CEC_ABORT_INCORRECT_MODE : Nat := 0x01

def CEC_ABORT_NO_SOURCE : Nat := 0x02

def CEC_ABORT_INVALID : Nat := 0x03

def CEC_ABORT_REFUSED : Nat := 0x04

def CEC_ABORT_UNDETERMINED : Nat := 0x05

/-! ## Data model -/

/-- A CEC frame: the byte array handed to `cec_frame_send` (octet 0 is the
address header, octet 1 the opcode, the rest operands). -/
abbrev Frame := List Nat

/-- Configuration snapshot (`cec_config_t`, the fields the responder core
reads: logical address, physical address, device type). -/
structure CecConfig where
  logical_address : Nat
  physical_address : Nat
  device_type : Nat
deriving DecidableEq

/-- Running responder state: the file-scope variables `laddr`, `paddr`,
`active_addr`, `audio_status` of `cec-task.c` plus the loop-local but
iteration-surviving `menu_state` of `cec_task`.  The `no_active` counter
is declared *inside* the `while` loop body and is therefore deliberately
not part of this record. -/
structure CecState where
  laddr : Nat
  paddr : Nat
  active_addr : Nat
  audio_status : Bool
  menu_state : Bool
deriving DecidableEq

/-- `static uint8_t laddr = 0x0f;` — initial logical address. -/
def initial_laddr : Nat := 0x0f

/-- `#define HEADER0(iaddr, daddr) ((iaddr << 4) | daddr)`, stored into a
`uint8_t` array element. -/
def HEADER0 (iaddr daddr : Nat) : Nat := ((iaddr <<< 4) ||| daddr) % 256

def NUM_LADDRESS : Nat := 4

def NUM_TYPES : Nat := 6

/-- The 6×4 logical-address allocation table `laddress` of `cec-task.c`. -/
def laddress : List (List Nat) :=
  [[0x00, 0x00, 0x00, 0x00],  -- TV
   [0x01, 0x02, 0x09, 0x0f],  -- Recording Device
   [0x0f, 0x0f, 0x0f, 0x0f],  -- Reserved
   [0x03, 0x06, 0x07, 0x0f],  -- Tuner
   [0x04, 0x08, 0x0b, 0x0f],  -- Playback Device
   [0x05, 0x05, 0x05, 0x05]]  -- Audio System

/-! ## Outbound frame constructors

Each C helper builds a fixed byte array and hands it to `cec_frame_send`;
the embedding returns the frame. -/

/-- `cec_feature_abort` -/
def cec_feature_abort (initiator destination msg reason : Nat) : Frame :=
  [HEADER0 initiator destination, CEC_ID_FEATURE_ABORT, msg, reason]

/-- `device_vendor_id` -/
def device_vendor_id (initiator destination vendor_id : Nat) : Frame :=
  [HEADER0 initiator destination, CEC_ID_DEVICE_VENDOR_ID,
   (vendor_id >>> 16) &&& 0xff, (vendor_id >>> 8) &&& 0xff, (vendor_id >>> 0) &&& 0xff]

/-- `report_power_status` -/
def report_power_status (initiator destination power_status : Nat) : Frame :=
  [HEADER0 initiator destination, CEC_ID_REPORT_POWER_STATUS, power_status]

/-- `set_system_audio_mode` -/
def set_system_audio_mode (initiator destination system_audio_mode : Nat) : Frame :=
  [HEADER0 initiator destination, CEC_ID_SET_SYSTEM_AUDIO_MODE, system_audio_mode]

/-- `report_audio_status` -/
def report_audio_status (initiator destination audio_status : Nat) : Frame :=
  [HEADER0 initiator destination, CEC_ID_REPORT_AUDIO_STATUS, audio_status]

/-- `system_audio_mode_status` -/
def system_audio_mode_status (initiator destination system_audio_mode_status : Nat) : Frame :=
  [HEADER0 initiator destination, CEC_ID_SYSTEM_AUDIO_MODE_STATUS, system_audio_mode_status]

/-- `set_osd_name`: the payload bytes are the ASCII codes of "Pico-CEC". -/
def set_osd_name (initiator destination : Nat) : Frame :=
  [HEADER0 initiator destination, CEC_ID_SET_OSD_NAME, 80, 105, 99, 111, 45, 67, 69, 67]

/-- `report_physical_address` -/
def report_physical_address (initiator destination physical_address device_type : Nat) : Frame :=
  [HEADER0 initiator destination, CEC_ID_REPORT_PHYSICAL_ADDRESS,
   (physical_address >>> 8) &&& 0xff, (physical_address >>> 0) &&& 0xff, device_type]

/-- `report_cec_version` (0x04 = CEC 1.3a) -/
def report_cec_version (initiator destination : Nat) : Frame :=
  [HEADER0 initiator destination, CEC_ID_CEC_VERSION, 0x04]

/-- The single-octet PING frame built by `cec_ping`:
`pld[0] = HEADER0(destination, destination)`. -/
def cec_ping (destination : Nat) : Frame :=
  [HEADER0 destination destination]

/-- `image_view_on` -/
def image_view_on (initiator destination : Nat) : Frame :=
  [HEADER0 initiator destination, CEC_ID_IMAGE_VIEW_ON]

/-- `active_source` (always broadcast, destination 0x0f) -/
def active_source (initiator physical_address : Nat) : Frame :=
  [HEADER0 initiator 0x0f, CEC_ID_ACTIVE_SOURCE,
   (physical_address >>> 8) &&& 0xff, (physical_address >>> 0) &&& 0xff]

/-- `menu_status`: `state = menu_state ? CEC_MENU_ACTIVATE : CEC_MENU_DEACTIVATE`. -/
def menu_status (initiator destination : Nat) (menu_state : Bool) : Frame :=
  [HEADER0 initiator destination, CEC_ID_MENU_STATUS,
   if menu_state then CEC_MENU_ACTIVATE else CEC_MENU_DEACTIVATE]

/-! ## Logical address allocation -/

/-- `get_physical_address`: configured value, else the DDC/EDID query
(whose result is passed in as `ddc`). -/
def get_physical_address (config : CecConfig) (ddc : Nat) : Nat :=
  if config.physical_address = 0 then ddc else config.physical_address

/-- The probe loop of `allocate_logical_address`: walk the device-type
row, PING each candidate, stop at the first candidate whose PING is not
acknowledged.  `a` carries the value of the C variable `a` from the
previous iteration (the variable is uninitialized before the first one;
every row is non-empty, so that value is never returned).  Returns the
allocated address and the PING frames handed to `cec_frame_send`. -/
def allocate_loop (ack : Nat → Bool) : List Nat → Nat → Nat × List Frame
  | [], a => (a, [])
  | c :: rest, _ =>
    if ack c then
      let r := allocate_loop ack rest c
      (r.1, cec_ping c :: r.2)
    else
      (c, [cec_ping c])

/-- `allocate_logical_address`: a configured address other than 0x00/0x0f
is used verbatim; otherwise the device-type row of `laddress` is probed.
`ack` tells whether the PING of a given candidate was acknowledged. -/
def allocate_logical_address (config : CecConfig) (ack : Nat → Bool) : Nat × List Frame :=
  if config.logical_address ≠ 0x00 ∧ config.logical_address ≠ 0x0f then
    (config.logical_address, [])
  else
    allocate_loop ack (laddress.getD config.device_type []) 0

/-! ## The responder step -/

/-- `uint8_t pld[16] = {0x0};` then `cec_frame_recv` fills the first
`pldcnt` bytes: the 16-byte receive buffer is the payload padded with
zeroes. -/
def pad16 (payload : List Nat) : List Nat :=
  payload ++ List.replicate (16 - payload.length) 0

/-- Result of one iteration of the responder loop: the new state and the
frames handed to `cec_frame_send`, in order. -/
structure StepResult where
  state : CecState
  sent : List Frame
deriving DecidableEq

/-- One iteration of the `while (true)` loop of `cec_task`: receive a
payload of `payload.length` bytes into the zeroed 16-byte buffer, decode
initiator/destination, and dispatch on the opcode.  `ack` supplies the
PING acknowledgements seen by any re-allocation, `ddc` the DDC physical
address.  The HID queue sends of `USER_CONTROL_PRESSED/RELEASED` and the
blink/log calls emit no CEC frames and are not modelled. -/
def cec_step (config : CecConfig) (ack : Nat → Bool) (ddc : Nat)
    (s : CecState) (payload : List Nat) : StepResult :=
  let pld := pad16 payload
  let pldcnt := payload.length
  let initiator := (pld.getD 0 0 &&& 0xf0) >>> 4
  let destination := pld.getD 0 0 &&& 0x0f
  if 1 < pldcnt then
    let op := pld.getD 1 0
    if op = CEC_ID_IMAGE_VIEW_ON then ⟨s, []⟩
    else if op = CEC_ID_TEXT_VIEW_ON then ⟨s, []⟩
    else if op = CEC_ID_STANDBY then
      if destination = s.laddr ∨ destination = 0x0f then
        ⟨{s with active_addr := 0x0000}, []⟩
      else ⟨s, []⟩
    else if op = CEC_ID_SYSTEM_AUDIO_MODE_REQUEST then
      if destination = s.laddr then
        ⟨s, [set_system_audio_mode s.laddr initiator (if s.audio_status then 1 else 0)]⟩
      else ⟨s, []⟩
    else if op = CEC_ID_GIVE_AUDIO_STATUS then
      if destination = s.laddr then
        ⟨s, [report_audio_status s.laddr initiator 0x32]⟩  -- volume 50%, mute off
      else ⟨s, []⟩
    else if op = CEC_ID_SET_SYSTEM_AUDIO_MODE then
      if destination = s.laddr ∨ destination = 0x0f then
        ⟨{s with audio_status := pld.getD 2 0 == 1}, []⟩
      else ⟨s, []⟩
    else if op = CEC_ID_GIVE_SYSTEM_AUDIO_MODE_STATUS then
      if destination = s.laddr then
        ⟨s, [system_audio_mode_status s.laddr initiator (if s.audio_status then 1 else 0)]⟩
      else ⟨s, []⟩
    else if op = CEC_ID_SYSTEM_AUDIO_MODE_STATUS then ⟨s, []⟩
    else if op = CEC_ID_ROUTING_CHANGE then
      let active_addr := ((pld.getD 4 0) <<< 8) ||| pld.getD 5 0
      let paddr := get_physical_address config ddc
      let alloc := allocate_logical_address config ack
      let laddr := alloc.1
      if paddr = active_addr then
        ⟨⟨laddr, paddr, active_addr, s.audio_status, s.menu_state⟩,
         alloc.2 ++ [image_view_on laddr 0x00, active_source laddr paddr]⟩
      else
        ⟨⟨laddr, paddr, active_addr, s.audio_status, s.menu_state⟩, alloc.2⟩
    else if op = CEC_ID_ACTIVE_SOURCE then
      ⟨{s with active_addr := ((pld.getD 2 0) <<< 8) ||| pld.getD 3 0}, []⟩
    else if op = CEC_ID_REPORT_PHYSICAL_ADDRESS then
      if initiator = 0x00 ∧ destination = 0x0f then
        let paddr := get_physical_address config ddc
        let alloc := allocate_logical_address config ack
        let laddr := alloc.1
        if paddr ≠ 0x0000 then
          ⟨{s with paddr := paddr, laddr := laddr},
           alloc.2 ++ [report_physical_address laddr 0x0f paddr config.device_type]⟩
        else
          ⟨{s with paddr := paddr, laddr := laddr}, alloc.2⟩
      else ⟨s, []⟩
    else if op = CEC_ID_REQUEST_ACTIVE_SOURCE then
      -- `uint8_t no_active = 0;` is declared inside the loop body, so the
      -- counter is 0 at the start of every dispatch; `no_active++` makes it 1.
      let no_active := 0 + 1
      if s.paddr = s.active_addr ∨ 2 < no_active then
        ⟨s, [image_view_on s.laddr 0x00, active_source s.laddr s.paddr]⟩
      else ⟨s, []⟩
    else if op = CEC_ID_SET_STREAM_PATH then
      if s.paddr = ((pld.getD 2 0) <<< 8) ||| pld.getD 3 0 then
        ⟨{s with active_addr := s.paddr, menu_state := true},
         [image_view_on s.laddr 0x00, active_source s.laddr s.paddr,
          menu_status s.laddr 0x00 true]⟩
      else ⟨s, []⟩
    else if op = CEC_ID_DEVICE_VENDOR_ID then
      if initiator = 0x00 ∧ destination = 0x0f then
        ⟨s, [device_vendor_id s.laddr 0x0f 0x0010FA]⟩
      else ⟨s, []⟩
    else if op = CEC_ID_GIVE_DEVICE_VENDOR_ID then
      if destination = s.laddr then
        ⟨s, [device_vendor_id s.laddr 0x0f 0x0010FA]⟩
      else ⟨s, []⟩
    else if op = CEC_ID_MENU_STATUS then ⟨s, []⟩
    else if op = CEC_ID_MENU_REQUEST then
      if destination = s.laddr then
        let request := pld.getD 2 0
        let menu_state :=
          if request = CEC_MENU_ACTIVATE then true
          else if request = CEC_MENU_DEACTIVATE then false
          else s.menu_state
        ⟨{s with menu_state := menu_state},
         [menu_status s.laddr initiator menu_state]⟩
      else ⟨s, []⟩
    else if op = CEC_ID_GIVE_DEVICE_POWER_STATUS then
      if destination = s.laddr then
        ⟨s, [report_power_status s.laddr initiator (if s.active_addr ≠ s.paddr then 1 else 0)]⟩
      else ⟨s, []⟩
    else if op = CEC_ID_REPORT_POWER_STATUS then ⟨s, []⟩
    else if op = CEC_ID_GET_MENU_LANGUAGE then ⟨s, []⟩
    else if op = CEC_ID_INACTIVE_SOURCE then ⟨s, []⟩
    else if op = CEC_ID_CEC_VERSION then ⟨s, []⟩
    else if op = CEC_ID_GET_CEC_VERSION then
      if destination = s.laddr then
        ⟨s, [report_cec_version s.laddr initiator]⟩
      else ⟨s, []⟩
    else if op = CEC_ID_GIVE_OSD_NAME then
      if destination = s.laddr then
        ⟨s, [set_osd_name s.laddr initiator]⟩
      else ⟨s, []⟩
    else if op = CEC_ID_SET_OSD_NAME then ⟨s, []⟩
    else if op = CEC_ID_GIVE_PHYSICAL_ADDRESS then
      if destination = s.laddr ∧ s.paddr ≠ 0x0000 then
        ⟨s, [report_physical_address s.laddr 0x0f s.paddr config.device_type]⟩
      else ⟨s, []⟩
    else if op = CEC_ID_USER_CONTROL_PRESSED then ⟨s, []⟩
    else if op = CEC_ID_USER_CONTROL_RELEASED then ⟨s, []⟩
    else if op = CEC_ID_ABORT then
      if destination = s.laddr then
        ⟨s, [cec_feature_abort s.laddr initiator (pld.getD 1 0) CEC_ABORT_REFUSED]⟩
      else ⟨s, []⟩
    else if op = CEC_ID_FEATURE_ABORT then ⟨s, []⟩
    else if op = CEC_ID_VENDOR_COMMAND_WITH_ID then ⟨s, []⟩
    else
      if destination = s.laddr then
        ⟨s, [cec_feature_abort s.laddr initiator (pld.getD 1 0) CEC_ABORT_UNRECOGNIZED]⟩
      else ⟨s, []⟩
  else ⟨s, []⟩

/-- The opcodes carrying an explicit `case` label in the dispatch switch
of `cec_task`; any other opcode falls into the `default:` arm. -/
def recognizedOpcodes : List Nat :=
  [CEC_ID_IMAGE_VIEW_ON, CEC_ID_TEXT_VIEW_ON, CEC_ID_STANDBY,
   CEC_ID_SYSTEM_AUDIO_MODE_REQUEST, CEC_ID_GIVE_AUDIO_STATUS,
   CEC_ID_SET_SYSTEM_AUDIO_MODE, CEC_ID_GIVE_SYSTEM_AUDIO_MODE_STATUS,
   CEC_ID_SYSTEM_AUDIO_MODE_STATUS, CEC_ID_ROUTING_CHANGE,
   CEC_ID_ACTIVE_SOURCE, CEC_ID_REPORT_PHYSICAL_ADDRESS,
   CEC_ID_REQUEST_ACTIVE_SOURCE, CEC_ID_SET_STREAM_PATH,
   CEC_ID_DEVICE_VENDOR_ID, CEC_ID_GIVE_DEVICE_VENDOR_ID,
   CEC_ID_MENU_STATUS, CEC_ID_MENU_REQUEST, CEC_ID_GIVE_DEVICE_POWER_STATUS,
   CEC_ID_REPORT_POWER_STATUS, CEC_ID_GET_MENU_LANGUAGE,
   CEC_ID_INACTIVE_SOURCE, CEC_ID_CEC_VERSION, CEC_ID_GET_CEC_VERSION,
   CEC_ID_GIVE_OSD_NAME, CEC_ID_SET_OSD_NAME, CEC_ID_GIVE_PHYSICAL_ADDRESS,
   CEC_ID_USER_CONTROL_PRESSED, CEC_ID_USER_CONTROL_RELEASED,
   CEC_ID_ABORT, CEC_ID_FEATURE_ABORT, CEC_ID_VENDOR_COMMAND_WITH_ID]

/-- Several consecutive iterations of the responder loop: thread the state
through `cec_step` over the received payloads, collecting all sent frames
in order. -/
def cec_run (config : CecConfig) (ack : Nat → Bool) (ddc : Nat)
    (s : CecState) : List (List Nat) → CecState × List Frame
  | [] => (s, [])
  | p :: rest =>
    let r := cec_step config ack ddc s p
    let t := cec_run config ack ddc r.state rest
    (t.1, r.sent ++ t.2)

/-! ## The logging channel (`cec-log.c`) -/

def LOG_LINE_LENGTH : Nat := 64

/-- Model of `vsnprintf(buffer, LOG_LINE_LENGTH, fmt, ap)` applied to a
formatted line of bytes `line`: the 64-byte buffer receives at most 63
characters (plus the terminating NUL); the return value is the length the
fully formatted line would have had. -/
def vsnprintf64 (line : List Nat) : List Nat × Nat :=
  (line.take (LOG_LINE_LENGTH - 1), line.length)

/-- `cec_log_vsubmitf`: when logging is enabled, format into the 64-byte
stack buffer and, only if the formatted length fit
(`bytes < sizeof(buffer)`), enqueue `bytes + 1` bytes (the characters and
the NUL) to the message buffer.  `none` means nothing was enqueued. -/
def cec_log_vsubmitf (enabled : Bool) (line : List Nat) : Option (List Nat) :=
  if enabled then
    let r := vsnprintf64 line
    if r.2 < LOG_LINE_LENGTH then some (r.1 ++ [0]) else none
  else none

/-- The sparse opcode mnemonic table `cec_message` of `cec-log.c`:
designated initializers, so an opcode without an entry is a NULL pointer,
modelled as `none`. -/
def cec_message_table : List (Nat × String) :=
  [(CEC_ID_FEATURE_ABORT, "Feature Abort"),
   (CEC_ID_IMAGE_VIEW_ON, "Image View On"),
   (CEC_ID_TEXT_VIEW_ON, "Text View On"),
   (CEC_ID_STANDBY, "Standby"),
   (CEC_ID_USER_CONTROL_PRESSED, "User Control Pressed"),
   (CEC_ID_USER_CONTROL_RELEASED, "User Control Released"),
   (CEC_ID_GIVE_OSD_NAME, "Give OSD Name"),
   (CEC_ID_SET_OSD_NAME, "Set OSD Name"),
   (CEC_ID_SYSTEM_AUDIO_MODE_REQUEST, "System Audio Mode Request"),
   (CEC_ID_GIVE_AUDIO_STATUS, "Give Audio Status"),
   (CEC_ID_SET_SYSTEM_AUDIO_MODE, "Set System Audio Mode"),
   (CEC_ID_GIVE_SYSTEM_AUDIO_MODE_STATUS, "Give System Audio Mode"),
   (CEC_ID_SYSTEM_AUDIO_MODE_STATUS, "System Audio Mode Status"),
   (CEC_ID_REPORT_AUDIO_STATUS, "Report Audio Status"),
   (CEC_ID_ROUTING_CHANGE, "Routing Change"),
   (CEC_ID_ACTIVE_SOURCE, "Active Source"),
   (CEC_ID_GIVE_PHYSICAL_ADDRESS, "Give Physical Address"),
   (CEC_ID_REPORT_PHYSICAL_ADDRESS, "Report Physical Address"),
   (CEC_ID_REQUEST_ACTIVE_SOURCE, "Request Active Source"),
   (CEC_ID_SET_STREAM_PATH, "Set Stream Path"),
   (CEC_ID_DEVICE_VENDOR_ID, "Device Vendor ID"),
   (CEC_ID_GIVE_DEVICE_VENDOR_ID, "Give Device Vendor ID"),
   (CEC_ID_MENU_STATUS, "Menu Status"),
   (CEC_ID_MENU_REQUEST, "Menu Request"),
   (CEC_ID_GIVE_DEVICE_POWER_STATUS, "Give Device Power Status"),
   (CEC_ID_REPORT_POWER_STATUS, "Report Power Status"),
   (CEC_ID_GET_MENU_LANGUAGE, "Get Menu Language"),
   (CEC_ID_INACTIVE_SOURCE, "Inactive Source"),
   (CEC_ID_CEC_VERSION, "CEC Version"),
   (CEC_ID_GET_CEC_VERSION, "Get CEC Version"),
   (CEC_ID_VENDOR_COMMAND_WITH_ID, "Vendor Command With ID"),
   (CEC_ID_REQUEST_ARC_INITIATION, "Request ARC Initiation"),
   (CEC_ID_ABORT, "Abort")]

/-- `cec_message[cmd]`: `none` is the NULL pointer of an absent entry. -/
def cec_message (cmd : Nat) : Option String :=
  cec_message_table.lookup cmd

/-- The possible outcomes of the `default:` arm of the switch in
`cec_log_frame`. -/
inductive DefaultLogLine where
  | decoded (m : String)
  | undecoded (cmd : Nat)
  | nullDeref
deriving DecidableEq

/-- The `default:` arm of the switch in `cec_log_frame`:
`const char *message = cec_message[cmd]; if (strlen(message) > 0) ...`.
When the table entry is absent (NULL), `strlen(message)` dereferences a
null pointer — undefined behaviour, modelled as `nullDeref`. -/
def cec_log_frame_default (cmd : Nat) : DefaultLogLine :=
  match cec_message cmd with
  | none => DefaultLogLine.nullDeref
  | some m =>
    if 0 < m.length then DefaultLogLine.decoded m
    else DefaultLogLine.undecoded cmd

/-! ## Concrete fixtures used by witnesses and counterexamples -/

/-- A configuration with auto-allocated logical address, fixed physical
address 0x3000 and device type Playback (4) — the §8 scenario setting. -/
def testConfig : CecConfig := ⟨0x00, 0x3000, 4⟩

/-- PING acknowledgements: nobody answers. -/
def ackNone : Nat → Bool := fun _ => false

/-- PING acknowledgements: everybody answers. -/
def ackAll : Nat → Bool := fun _ => true

/-- The §8 scenario state: `laddr = 4`, `paddr = 0x3000`, nothing active. -/
def s1 : CecState := ⟨4, 0x3000, 0x0000, false, false⟩


/-- A configuration with auto-allocated logical address and device type TV (0). -/
def tvConfig : CecConfig := ⟨0x00, 0x3000, 0⟩

/-- Invariant: every frame in `r.sent` of length at least 2 carries
`r.state.laddr` in the high nibble of octet 0. -/
def SentOK (r : StepResult) : Prop :=
  ∀ f ∈ r.sent, 2 ≤ f.length → f.headD 0 >>> 4 = r.state.laddr


/-! ## Helper lemmas -/

lemma replicate_getD_zero (n m : Nat) : (List.replicate n (0 : Nat)).getD m 0 = 0 := by
  induction n generalizing m with
  | zero => simp
  | succ k ih =>
    cases m with
    | zero => simp [List.replicate_succ]
    | succ j => simp only [List.replicate_succ, List.getD_cons_succ]; exact ih j

lemma pad16_getD_zero (payload : List Nat) (i : Nat) (hi : payload.length ≤ i) :
    (pad16 payload).getD i 0 = 0 := by
  unfold pad16
  rw [List.getD_append_right _ _ _ _ hi]
  exact replicate_getD_zero _ _

lemma allocate_loop_fst (ack : Nat → Bool) (row : List Nat) (a : Nat) :
    (allocate_loop ack row a).1 =
      (row.find? (fun c => !ack c)).getD (row.getLastD a) := by
  induction row generalizing a with
  | nil => simp [allocate_loop]
  | cons c rest ih =>
    by_cases hc : ack c
    · have e1 : (allocate_loop ack (c :: rest) a).1 = (allocate_loop ack rest c).1 := by
        simp [allocate_loop, hc]
      rw [e1, ih c, List.getLastD_cons, List.find?_cons_of_neg _ (by simp [hc])]
    · have e1 : (allocate_loop ack (c :: rest) a).1 = c := by
        simp [allocate_loop, hc]
      rw [e1, List.find?_cons_of_pos _ (by simp [hc])]
      rfl

lemma header0_shift : ∀ l < 16, ∀ d < 16, HEADER0 l d >>> 4 = l := by decide

lemma initiator_lt16 (h : Nat) : (h &&& 0xf0) >>> 4 < 16 := by
  have hle : h &&& 0xf0 ≤ 0xf0 := Nat.and_le_right
  rw [Nat.shiftRight_eq_div_pow]
  omega

lemma allocate_loop_sent_length (ack : Nat → Bool) (row : List Nat) (a : Nat) :
    ∀ f ∈ (allocate_loop ack row a).2, f.length = 1 := by
  induction row generalizing a with
  | nil => intro f hf; simp [allocate_loop] at hf
  | cons c rest ih =>
    intro f hf
    by_cases hc : ack c
    · simp only [allocate_loop, hc, if_true] at hf
      rcases List.mem_cons.mp hf with hf | hf
      · subst hf; rfl
      · exact ih c f hf
    · simp only [allocate_loop, hc, if_false] at hf
      rcases List.mem_singleton.mp hf with hf
      subst hf; rfl

lemma allocate_sent_length (config : CecConfig) (ack : Nat → Bool) :
    ∀ f ∈ (allocate_logical_address config ack).2, f.length = 1 := by
  unfold allocate_logical_address
  split
  · simp
  · exact allocate_loop_sent_length ack _ 0

lemma laddress_getD_row_lt (dt : Nat) : ∀ c ∈ laddress.getD dt [], c < 16 := by
  match dt with
  | 0 | 1 | 2 | 3 | 4 | 5 => decide
  | (n + 6) =>
    intro c hc
    rw [List.getD_eq_default _ _ (by simp [laddress] : laddress.length ≤ n + 6)] at hc
    simp at hc

lemma allocate_loop_fst_lt (ack : Nat → Bool) (row : List Nat) :
    ∀ a, a < 16 → (∀ c ∈ row, c < 16) → (allocate_loop ack row a).1 < 16 := by
  induction row with
  | nil => intro a ha _; simpa [allocate_loop] using ha
  | cons c rest ih =>
    intro a ha hrow
    have hc16 : c < 16 := hrow c (by simp)
    by_cases hc : ack c
    · simp only [allocate_loop, hc, if_true]
      exact ih c hc16 (fun x hx => hrow x (by simp [hx]))
    · simpa [allocate_loop, hc] using hc16

lemma allocate_fst_lt (config : CecConfig) (ack : Nat → Bool)
    (hc : config.logical_address < 16) : (allocate_logical_address config ack).1 < 16 := by
  unfold allocate_logical_address
  split
  · exact hc
  · exact allocate_loop_fst_lt ack _ 0 (by decide) (laddress_getD_row_lt _)

lemma sentOK_nil (st : CecState) : SentOK ⟨st, []⟩ :=
  fun f hf => absurd hf (List.not_mem_nil f)

lemma sentOK_ite (c : Prop) [Decidable c] (a b : StepResult)
    (ha : SentOK a) (hb : SentOK b) : SentOK (if c then a else b) := by
  by_cases h : c
  · rw [if_pos h]; exact ha
  · rw [if_neg h]; exact hb

lemma sentOK_one (st : CecState) (x : Nat) (xs : List Nat)
    (hx : x >>> 4 = st.laddr) : SentOK ⟨st, [x :: xs]⟩ :=
  fun f hf _ => by rcases List.mem_singleton.mp hf with rfl; exact hx

lemma sentOK_pings (config : CecConfig) (ack : Nat → Bool) (st : CecState) :
    SentOK ⟨st, (allocate_logical_address config ack).2⟩ :=
  fun f hf hflen => by
    have h1 := allocate_sent_length config ack f hf
    omega

lemma sentOK_pings_append (config : CecConfig) (ack : Nat → Bool)
    (st : CecState) (frames : List Frame)
    (hfr : ∀ f ∈ frames, 2 ≤ f.length → f.headD 0 >>> 4 = st.laddr) :
    SentOK ⟨st, (allocate_logical_address config ack).2 ++ frames⟩ :=
  fun f hf hflen => by
    rcases List.mem_append.mp hf with hping | hf2
    · have h1 := allocate_sent_length config ack f hping
      omega
    · exact hfr f hf2 hflen

set_option maxHeartbeats 2000000 in
lemma step_sent_ok (config : CecConfig) (ack : Nat → Bool) (ddc : Nat)
    (s : CecState) (payload : List Nat)
    (hl : s.laddr < 16) (hc : config.logical_address < 16) :
    SentOK (cec_step config ack ddc s payload) := by
  simp only [cec_step]
  by_cases hlen : 1 < payload.length
  case neg => rw [if_neg hlen]; exact sentOK_nil _
  rw [if_pos hlen]
  by_cases h0 : (pad16 payload).getD 1 0 = CEC_ID_IMAGE_VIEW_ON
  case pos =>
    rw [if_pos h0]
    exact sentOK_nil _
  rw [if_neg h0]
  by_cases h1 : (pad16 payload).getD 1 0 = CEC_ID_TEXT_VIEW_ON
  case pos =>
    rw [if_pos h1]
    exact sentOK_nil _
  rw [if_neg h1]
  by_cases h2 : (pad16 payload).getD 1 0 = CEC_ID_STANDBY
  case pos =>
    rw [if_pos h2]
    exact sentOK_ite _ _ _ (sentOK_nil _) (sentOK_nil _)
  rw [if_neg h2]
  by_cases h3 : (pad16 payload).getD 1 0 = CEC_ID_SYSTEM_AUDIO_MODE_REQUEST
  case pos =>
    rw [if_pos h3]
    exact sentOK_ite _ _ _ (sentOK_one _ _ _ (header0_shift _ hl _ (initiator_lt16 _))) (sentOK_nil _)
  rw [if_neg h3]
  by_cases h4 : (pad16 payload).getD 1 0 = CEC_ID_GIVE_AUDIO_STATUS
  case pos =>
    rw [if_pos h4]
    exact sentOK_ite _ _ _ (sentOK_one _ _ _ (header0_shift _ hl _ (initiator_lt16 _))) (sentOK_nil _)
  rw [if_neg h4]
  by_cases h5 : (pad16 payload).getD 1 0 = CEC_ID_SET_SYSTEM_AUDIO_MODE
  case pos =>
    rw [if_pos h5]
    exact sentOK_ite _ _ _ (sentOK_nil _) (sentOK_nil _)
  rw [if_neg h5]
  by_cases h6 : (pad16 payload).getD 1 0 = CEC_ID_GIVE_SYSTEM_AUDIO_MODE_STATUS
  case pos =>
    rw [if_pos h6]
    exact sentOK_ite _ _ _ (sentOK_one _ _ _ (header0_shift _ hl _ (initiator_lt16 _))) (sentOK_nil _)
  rw [if_neg h6]
  by_cases h7 : (pad16 payload).getD 1 0 = CEC_ID_SYSTEM_AUDIO_MODE_STATUS
  case pos =>
    rw [if_pos h7]
    exact sentOK_nil _
  rw [if_neg h7]
  by_cases h8 : (pad16 payload).getD 1 0 = CEC_ID_ROUTING_CHANGE
  case pos =>
    rw [if_pos h8]
    refine sentOK_ite _ _ _ (sentOK_pings_append config ack _ _ ?_) (sentOK_pings config ack _)
    intro f hf hflen
    rcases List.mem_cons.mp hf with rfl | hf
    · exact header0_shift _ (allocate_fst_lt config ack hc) _ (by decide)
    · rcases List.mem_singleton.mp hf with rfl
      exact header0_shift _ (allocate_fst_lt config ack hc) _ (by decide)
  rw [if_neg h8]
  by_cases h9 : (pad16 payload).getD 1 0 = CEC_ID_ACTIVE_SOURCE
  case pos =>
    rw [if_pos h9]
    exact sentOK_nil _
  rw [if_neg h9]
  by_cases h10 : (pad16 payload).getD 1 0 = CEC_ID_REPORT_PHYSICAL_ADDRESS
  case pos =>
    rw [if_pos h10]
    refine sentOK_ite _ _ _ (sentOK_ite _ _ _ (sentOK_pings_append config ack _ _ ?_) (sentOK_pings config ack _)) (sentOK_nil _)
    intro f hf hflen
    rcases List.mem_singleton.mp hf with rfl
    exact header0_shift _ (allocate_fst_lt config ack hc) _ (by decide)
  rw [if_neg h10]
  by_cases h11 : (pad16 payload).getD 1 0 = CEC_ID_REQUEST_ACTIVE_SOURCE
  case pos =>
    rw [if_pos h11]
    refine sentOK_ite _ _ _ ?_ (sentOK_nil _)
    intro f hf hflen
    rcases List.mem_cons.mp hf with rfl | hf
    · exact header0_shift _ hl _ (by decide)
    · rcases List.mem_singleton.mp hf with rfl
      exact header0_shift _ hl _ (by decide)
  rw [if_neg h11]
  by_cases h12 : (pad16 payload).getD 1 0 = CEC_ID_SET_STREAM_PATH
  case pos =>
    rw [if_pos h12]
    refine sentOK_ite _ _ _ ?_ (sentOK_nil _)
    intro f hf hflen
    rcases List.mem_cons.mp hf with rfl | hf
    · exact header0_shift _ hl _ (by decide)
    · rcases List.mem_cons.mp hf with rfl | hf
      · exact header0_shift _ hl _ (by decide)
      · rcases List.mem_singleton.mp hf with rfl
        exact header0_shift _ hl _ (by decide)
  rw [if_neg h12]
  by_cases h13 : (pad16 payload).getD 1 0 = CEC_ID_DEVICE_VENDOR_ID
  case pos =>
    rw [if_pos h13]
    exact sentOK_ite _ _ _ (sentOK_one _ _ _ (header0_shift _ hl _ (by decide))) (sentOK_nil _)
  rw [if_neg h13]
  by_cases h14 : (pad16 payload).getD 1 0 = CEC_ID_GIVE_DEVICE_VENDOR_ID
  case pos =>
    rw [if_pos h14]
    exact sentOK_ite _ _ _ (sentOK_one _ _ _ (header0_shift _ hl _ (by decide))) (sentOK_nil _)
  rw [if_neg h14]
  by_cases h15 : (pad16 payload).getD 1 0 = CEC_ID_MENU_STATUS
  case pos =>
    rw [if_pos h15]
    exact sentOK_nil _
  rw [if_neg h15]
  by_cases h16 : (pad16 payload).getD 1 0 = CEC_ID_MENU_REQUEST
  case pos =>
    rw [if_pos h16]
    exact sentOK_ite _ _ _ (sentOK_one _ _ _ (header0_shift _ hl _ (initiator_lt16 _))) (sentOK_nil _)
  rw [if_neg h16]
  by_cases h17 : (pad16 payload).getD 1 0 = CEC_ID_GIVE_DEVICE_POWER_STATUS
  case pos =>
    rw [if_pos h17]
    exact sentOK_ite _ _ _ (sentOK_one _ _ _ (header0_shift _ hl _ (initiator_lt16 _))) (sentOK_nil _)
  rw [if_neg h17]
  by_cases h18 : (pad16 payload).getD 1 0 = CEC_ID_REPORT_POWER_STATUS
  case pos =>
    rw [if_pos h18]
    exact sentOK_nil _
  rw [if_neg h18]
  by_cases h19 : (pad16 payload).getD 1 0 = CEC_ID_GET_MENU_LANGUAGE
  case pos =>
    rw [if_pos h19]
    exact sentOK_nil _
  rw [if_neg h19]
  by_cases h20 : (pad16 payload).getD 1 0 = CEC_ID_INACTIVE_SOURCE
  case pos =>
    rw [if_pos h20]
    exact sentOK_nil _
  rw [if_neg h20]
  by_cases h21 : (pad16 payload).getD 1 0 = CEC_ID_CEC_VERSION
  case pos =>
    rw [if_pos h21]
    exact sentOK_nil _
  rw [if_neg h21]
  by_cases h22 : (pad16 payload).getD 1 0 = CEC_ID_GET_CEC_VERSION
  case pos =>
    rw [if_pos h22]
    exact sentOK_ite _ _ _ (sentOK_one _ _ _ (header0_shift _ hl _ (initiator_lt16 _))) (sentOK_nil _)
  rw [if_neg h22]
  by_cases h23 : (pad16 payload).getD 1 0 = CEC_ID_GIVE_OSD_NAME
  case pos =>
    rw [if_pos h23]
    exact sentOK_ite _ _ _ (sentOK_one _ _ _ (header0_shift _ hl _ (initiator_lt16 _))) (sentOK_nil _)
  rw [if_neg h23]
  by_cases h24 : (pad16 payload).getD 1 0 = CEC_ID_SET_OSD_NAME
  case pos =>
    rw [if_pos h24]
    exact sentOK_nil _
  rw [if_neg h24]
  by_cases h25 : (pad16 payload).getD 1 0 = CEC_ID_GIVE_PHYSICAL_ADDRESS
  case pos =>
    rw [if_pos h25]
    exact sentOK_ite _ _ _ (sentOK_one _ _ _ (header0_shift _ hl _ (by decide))) (sentOK_nil _)
  rw [if_neg h25]
  by_cases h26 : (pad16 payload).getD 1 0 = CEC_ID_USER_CONTROL_PRESSED
  case pos =>
    rw [if_pos h26]
    exact sentOK_nil _
  rw [if_neg h26]
  by_cases h27 : (pad16 payload).getD 1 0 = CEC_ID_USER_CONTROL_RELEASED
  case pos =>
    rw [if_pos h27]
    exact sentOK_nil _
  rw [if_neg h27]
  by_cases h28 : (pad16 payload).getD 1 0 = CEC_ID_ABORT
  case pos =>
    rw [if_pos h28]
    exact sentOK_ite _ _ _ (sentOK_one _ _ _ (header0_shift _ hl _ (initiator_lt16 _))) (sentOK_nil _)
  rw [if_neg h28]
  by_cases h29 : (pad16 payload).getD 1 0 = CEC_ID_FEATURE_ABORT
  case pos =>
    rw [if_pos h29]
    exact sentOK_nil _
  rw [if_neg h29]
  by_cases h30 : (pad16 payload).getD 1 0 = CEC_ID_VENDOR_COMMAND_WITH_ID
  case pos =>
    rw [if_pos h30]
    exact sentOK_nil _
  rw [if_neg h30]
  exact sentOK_ite _ _ _ (sentOK_one _ _ _ (header0_shift _ hl _ (initiator_lt16 _))) (sentOK_nil _)

/-! ## The claims -/

/-- C1: the claim says `no_active_counter` is persistent responder state that
survives between dispatched frames, so that the third of three consecutive
`REQUEST_ACTIVE_SOURCE` frames received while `paddr ≠ active_addr` pushes
the counter past 2 and triggers `IMAGE_VIEW_ON` + broadcast `ACTIVE_SOURCE`.
In the source, `uint8_t no_active = 0;` is declared inside the `while` loop
body, so the counter restarts at zero on every iteration: across three
consecutive `REQUEST_ACTIVE_SOURCE` frames (opcode 0x85, per the §6 CEC 1.3a
wire encoding) from the §8 state (`laddr = 4`, `paddr = 0x3000`,
`active_addr = 0`), the responder emits no frame at all and the state is
unchanged. -/
theorem c1_no_active_not_persistent :
    s1.paddr ≠ s1.active_addr ∧
    cec_run testConfig ackNone 0 s1 [[0x0F, 0x85], [0x0F, 0x85], [0x0F, 0x85]] = (s1, []) := by
  decide

/-- C2 counterexample: on the §8 scenario input `[0x0F, 0x86, 0x30, 0x00]`
(`SET_STREAM_PATH` to our paddr) the third emitted frame is
`[0x40, 0x8E, 0x00]`, not the claimed `[0x40, 0x8E, 0x01]`: `menu_status`
sends `CEC_MENU_ACTIVATE = 0x00` for an active menu. -/
theorem c2_menu_status_operand_cex :
    (cec_step testConfig ackNone 0 s1 [0x0F, 0x86, 0x30, 0x00]).sent ≠
      [[0x40, 0x04], [0x4F, 0x82, 0x30, 0x00], [0x40, 0x8E, 0x01]] ∧
    (cec_step testConfig ackNone 0 s1 [0x0F, 0x86, 0x30, 0x00]).sent =
      [[0x40, 0x04], [0x4F, 0x82, 0x30, 0x00], [0x40, 0x8E, 0x00]] := by
  decide

/-- C2 amended: for every received `SET_STREAM_PATH` frame whose operand
equals `paddr` (with `laddr = 4`, `paddr = 0x3000`), after handling
`active_addr = paddr` and `menu_state = true`, and exactly three frames are
emitted in order: `[0x40, 0x04]` (`IMAGE_VIEW_ON` to the TV),
`[0x4F, 0x82, 0x30, 0x00]` (broadcast `ACTIVE_SOURCE`), and
`[0x40, 0x8E, 0x00]` (`MENU_STATUS` with operand `CEC_MENU_ACTIVATE = 0x00`,
meaning activated, to the TV). -/
theorem c2_set_stream_path_amended (config : CecConfig) (ack : Nat → Bool) (ddc : Nat)
    (h active : Nat) (audio menu : Bool) :
    cec_step config ack ddc ⟨4, 0x3000, active, audio, menu⟩ [h, 0x86, 0x30, 0x00] =
      ⟨⟨4, 0x3000, 0x3000, audio, true⟩,
       [[0x40, 0x04], [0x4F, 0x82, 0x30, 0x00], [0x40, 0x8E, 0x00]]⟩ := by
  show (if (0x3000 : Nat) = ((pad16 [h, 0x86, 0x30, 0x00]).getD 2 0 <<< 8) |||
            (pad16 [h, 0x86, 0x30, 0x00]).getD 3 0 then
          (⟨⟨4, 0x3000, 0x3000, audio, true⟩,
            [image_view_on 4 0x00, active_source 4 0x3000, menu_status 4 0x00 true]⟩ : StepResult)
        else ⟨⟨4, 0x3000, active, audio, menu⟩, []⟩) =
      ⟨⟨4, 0x3000, 0x3000, audio, true⟩,
       [[0x40, 0x04], [0x4F, 0x82, 0x30, 0x00], [0x40, 0x8E, 0x00]]⟩
  rw [show (pad16 [h, 0x86, 0x30, 0x00]).getD 2 0 = 0x30 from rfl,
      show (pad16 [h, 0x86, 0x30, 0x00]).getD 3 0 = 0x00 from rfl,
      if_pos (by decide : (0x3000 : Nat) = (0x30 <<< 8) ||| 0x00)]
  congr 1

/-- C3 counterexample: a `SET_SYSTEM_AUDIO_MODE` frame of reported length 2
(directed, `[0x04, 0x72]`) IS acted upon: the handler reads `pld[2]` (index
2, at the reported length) from the zeroed buffer and flips `audio_status`
from `true` to `false` — refuting "does not act on the frame beyond logging
it". -/
theorem c3_short_frame_acts_cex :
    (cec_step testConfig ackNone 0 ⟨4, 0x3000, 0, true, false⟩ [0x04, 0x72]).state ≠
      (⟨4, 0x3000, 0, true, false⟩ : CecState) ∧
    (cec_step testConfig ackNone 0 ⟨4, 0x3000, 0, true, false⟩ [0x04, 0x72]).state.audio_status
      = false := by
  decide

/-- C3 amended: operand bytes at or beyond the reported payload length are
read from the zero-initialized 16-byte buffer and evaluate to 0x00, and the
frame is still acted upon: a `ROUTING_CHANGE` of reported length 2 reads
`pld[4]`/`pld[5]` as zero, sets `active_addr := 0x0000`, refreshes `paddr`
and `laddr` (emitting the allocation PING), for every prior state. -/
theorem c3_routing_change_short_amended (s : CecState) (h : Nat) :
    cec_step testConfig ackNone 0 s [h, 0x80] =
      ⟨⟨4, 0x3000, 0x0000, s.audio_status, s.menu_state⟩, [[0x44]]⟩ := by
  show (if (0x3000 : Nat) = ((pad16 [h, 0x80]).getD 4 0 <<< 8) ||| (pad16 [h, 0x80]).getD 5 0 then
          (⟨⟨4, 0x3000, ((pad16 [h, 0x80]).getD 4 0 <<< 8) ||| (pad16 [h, 0x80]).getD 5 0,
             s.audio_status, s.menu_state⟩,
            [cec_ping 4, image_view_on 4 0x00, active_source 4 0x3000]⟩ : StepResult)
        else
          ⟨⟨4, 0x3000, ((pad16 [h, 0x80]).getD 4 0 <<< 8) ||| (pad16 [h, 0x80]).getD 5 0,
             s.audio_status, s.menu_state⟩,
           [cec_ping 4]⟩) =
      ⟨⟨4, 0x3000, 0x0000, s.audio_status, s.menu_state⟩, [[0x44]]⟩
  rw [show (pad16 [h, 0x80]).getD 4 0 = 0 from rfl,
      show (pad16 [h, 0x80]).getD 5 0 = 0 from rfl,
      show ((0 : Nat) <<< 8) ||| 0 = 0 from by decide,
      if_neg (by decide : ¬((0x3000 : Nat) = 0))]
  congr 1

/-- C4 counterexample: a line whose formatted length is exactly the 64-byte
buffer size is truncated at format time (`vsnprintf` keeps 63 characters)
but is then DISCARDED — `cec_log_vsubmitf` enqueues nothing — refuting "is
still enqueued to the message buffer ... the line is not discarded". -/
theorem c4_long_line_dropped_cex :
    cec_log_vsubmitf true (List.replicate 64 97) = none ∧
    (vsnprintf64 (List.replicate 64 97)).1 = List.replicate 63 97 := by
  decide

/-- C4 amended: while logging is enabled, a line whose formatted length
meets or exceeds the 64-byte line buffer is truncated at format time but
then silently dropped (the `bytes < sizeof(buffer)` guard fails and nothing
is enqueued); only a line whose formatted length is at most 63 is enqueued,
followed by its terminating NUL. -/
theorem c4_submit_amended (line : List Nat) :
    (LOG_LINE_LENGTH ≤ line.length → cec_log_vsubmitf true line = none) ∧
    (line.length < LOG_LINE_LENGTH → cec_log_vsubmitf true line = some (line ++ [0])) := by
  constructor
  · intro hlen
    show (if line.length < LOG_LINE_LENGTH then
            some (line.take (LOG_LINE_LENGTH - 1) ++ [0]) else none) = none
    rw [if_neg (by omega)]
  · intro hlen
    show (if line.length < LOG_LINE_LENGTH then
            some (line.take (LOG_LINE_LENGTH - 1) ++ [0]) else none) = some (line ++ [0])
    rw [if_pos hlen, List.take_of_length_le
      (by simp only [LOG_LINE_LENGTH] at hlen ⊢; omega)]

/-- C4 witness: `c4_submit_amended` applied to a 65-byte line (dropped) and
to a 2-byte line (enqueued with its NUL). -/
theorem c4_submit_amended_witness :
    cec_log_vsubmitf true (List.replicate 65 97) = none ∧
    cec_log_vsubmitf true [104, 105] = some [104, 105, 0] :=
  ⟨(c4_submit_amended (List.replicate 65 97)).1 (by decide),
   (c4_submit_amended [104, 105]).2 (by decide)⟩

/-- C5 counterexample: the PING frames sent during logical-address
allocation carry the pinged candidate address in both nibbles, not `laddr`:
while `laddr` still holds its initial value 0x0F, probing Playback candidate
0x04 hands `[0x44]` to `frame_send`, whose high nibble 4 differs from
`laddr`. -/
theorem c5_ping_header_cex :
    cec_ping 0x04 = [0x44] ∧ initial_laddr = 0x0f ∧ ((0x44 : Nat) >>> 4) ≠ initial_laddr ∧
    (allocate_logical_address testConfig ackNone).2 = [[0x44]] := by
  decide

/-- C5 amended: every outbound frame of length at least 2 that a dispatch
step hands to `frame_send` carries the responder's logical address at the
time of emission (the post-step `laddr`) in the high nibble of octet 0;
single-octet PING frames are the exception — `cec_ping` builds
`(addr << 4) | addr` from the pinged address itself. -/
theorem c5_high_nibble_amended (config : CecConfig) (ack : Nat → Bool) (ddc : Nat)
    (s : CecState) (payload : List Nat)
    (hl : s.laddr < 16) (hc : config.logical_address < 16) :
    (∀ f ∈ (cec_step config ack ddc s payload).sent, 2 ≤ f.length →
        f.headD 0 >>> 4 = (cec_step config ack ddc s payload).state.laddr) ∧
    (∀ d, cec_ping d = [((d <<< 4) ||| d) % 256]) :=
  ⟨step_sent_ok config ack ddc s payload hl hc, fun _ => rfl⟩

/-- C5 witness: `c5_high_nibble_amended` on the directed `GET_CEC_VERSION`
frame `[0x04, 0x9F]` in the §8 state: the reply `[0x40, 0x9E, 0x04]` has
high nibble 4 = `laddr`. -/
theorem c5_high_nibble_amended_witness :
    ([0x40, 0x9E, 0x04] : Frame).headD 0 >>> 4 =
      (cec_step testConfig ackNone 0 s1 [0x04, 0x9F]).state.laddr :=
  (c5_high_nibble_amended testConfig ackNone 0 s1 [0x04, 0x9F] (by decide) (by decide)).1
    [0x40, 0x9E, 0x04] (by decide) (by decide)


/-- C6 counterexample: the TV row of `laddress` ends in 0x00, not 0x0F, and
auto-allocation for device type TV with every PING acknowledged returns
0x00, not the unregistered address 0x0F. -/
theorem c6_table_row_cex :
    (laddress.getD 0 []).getLastD 0xff ≠ 0x0f ∧
    (allocate_logical_address tvConfig ackAll).1 = 0x00 := by
  decide

/-- C6 amended: auto-allocation (configured logical address 0x00 or 0x0F)
returns the first candidate of the device-type row whose PING is not
acknowledged, and otherwise the last entry of the row; the rows' final
slots are `[0x00, 0x0F, 0x0F, 0x0F, 0x0F, 0x05]` (TV, Recording, Reserved,
Tuner, Playback, AudioSystem) — only the Recording/Reserved/Tuner/Playback
rows terminate in 0x0F. -/
theorem c6_allocation_amended (config : CecConfig) (ack : Nat → Bool)
    (hauto : config.logical_address = 0x00 ∨ config.logical_address = 0x0f) :
    (allocate_logical_address config ack).1 =
      ((laddress.getD config.device_type []).find? (fun c => !ack c)).getD
        ((laddress.getD config.device_type []).getLastD 0) ∧
    laddress.map (fun row => row.getLastD 0) = [0x00, 0x0f, 0x0f, 0x0f, 0x0f, 0x05] := by
  refine ⟨?_, by decide⟩
  unfold allocate_logical_address
  rw [if_neg (by rcases hauto with hz | hz <;> simp [hz])]
  exact allocate_loop_fst ack _ 0

/-- C6 witness: `c6_allocation_amended` for the Playback row with every
PING acknowledged: allocation exhausts the row and returns 0x0F. -/
theorem c6_allocation_amended_witness :
    (allocate_logical_address testConfig ackAll).1 = 0x0f :=
  ((c6_allocation_amended testConfig ackAll (Or.inl rfl)).1).trans (by decide)


set_option maxHeartbeats 2000000 in
/-- C7: an inbound frame carrying an opcode outside the recognized dispatch
set emits exactly one `FEATURE_ABORT(opcode, UNRECOGNIZED)` when addressed
directly to `laddr`, and nothing otherwise; the state is unchanged. -/
theorem c7_unrecognized_feature_abort (config : CecConfig) (ack : Nat → Bool) (ddc : Nat)
    (s : CecState) (h op : Nat) (rest : List Nat)
    (hop : op ∉ recognizedOpcodes) :
    cec_step config ack ddc s (h :: op :: rest) =
      ⟨s, if h &&& 0x0f = s.laddr
          then [cec_feature_abort s.laddr ((h &&& 0xf0) >>> 4) op CEC_ABORT_UNRECOGNIZED]
          else []⟩ := by
  have hne : ∀ c ∈ recognizedOpcodes, op ≠ c := fun c hcm he => hop (he ▸ hcm)
  simp only [cec_step]
  rw [if_pos (show 1 < (h :: op :: rest).length by simp only [List.length_cons]; omega),
    show (pad16 (h :: op :: rest)).getD 1 0 = op from rfl,
    show (pad16 (h :: op :: rest)).getD 0 0 = h from rfl]
  rw [if_neg (hne CEC_ID_IMAGE_VIEW_ON (by decide)),
    if_neg (hne CEC_ID_TEXT_VIEW_ON (by decide)),
    if_neg (hne CEC_ID_STANDBY (by decide)),
    if_neg (hne CEC_ID_SYSTEM_AUDIO_MODE_REQUEST (by decide)),
    if_neg (hne CEC_ID_GIVE_AUDIO_STATUS (by decide)),
    if_neg (hne CEC_ID_SET_SYSTEM_AUDIO_MODE (by decide)),
    if_neg (hne CEC_ID_GIVE_SYSTEM_AUDIO_MODE_STATUS (by decide)),
    if_neg (hne CEC_ID_SYSTEM_AUDIO_MODE_STATUS (by decide)),
    if_neg (hne CEC_ID_ROUTING_CHANGE (by decide)),
    if_neg (hne CEC_ID_ACTIVE_SOURCE (by decide)),
    if_neg (hne CEC_ID_REPORT_PHYSICAL_ADDRESS (by decide)),
    if_neg (hne CEC_ID_REQUEST_ACTIVE_SOURCE (by decide)),
    if_neg (hne CEC_ID_SET_STREAM_PATH (by decide)),
    if_neg (hne CEC_ID_DEVICE_VENDOR_ID (by decide)),
    if_neg (hne CEC_ID_GIVE_DEVICE_VENDOR_ID (by decide)),
    if_neg (hne CEC_ID_MENU_STATUS (by decide)),
    if_neg (hne CEC_ID_MENU_REQUEST (by decide)),
    if_neg (hne CEC_ID_GIVE_DEVICE_POWER_STATUS (by decide)),
    if_neg (hne CEC_ID_REPORT_POWER_STATUS (by decide)),
    if_neg (hne CEC_ID_GET_MENU_LANGUAGE (by decide)),
    if_neg (hne CEC_ID_INACTIVE_SOURCE (by decide)),
    if_neg (hne CEC_ID_CEC_VERSION (by decide)),
    if_neg (hne CEC_ID_GET_CEC_VERSION (by decide)),
    if_neg (hne CEC_ID_GIVE_OSD_NAME (by decide)),
    if_neg (hne CEC_ID_SET_OSD_NAME (by decide)),
    if_neg (hne CEC_ID_GIVE_PHYSICAL_ADDRESS (by decide)),
    if_neg (hne CEC_ID_USER_CONTROL_PRESSED (by decide)),
    if_neg (hne CEC_ID_USER_CONTROL_RELEASED (by decide)),
    if_neg (hne CEC_ID_ABORT (by decide)),
    if_neg (hne CEC_ID_FEATURE_ABORT (by decide)),
    if_neg (hne CEC_ID_VENDOR_COMMAND_WITH_ID (by decide))]
  by_cases hd : h &&& 0x0f = s.laddr
  · rw [if_pos hd, if_pos hd]
  · rw [if_neg hd, if_neg hd]

/-- C7 witness: `c7_unrecognized_feature_abort` at the §8 scenario input
`[0x04, 0xAA]` with `laddr = 4`: one frame `[0x40, 0x00, 0xAA, 0x00]`. -/
theorem c7_unrecognized_feature_abort_witness :
    cec_step testConfig ackNone 0 s1 [0x04, 0xAA] =
      ⟨s1, if 0x04 &&& 0x0f = s1.laddr
           then [cec_feature_abort s1.laddr ((0x04 &&& 0xf0) >>> 4) 0xAA CEC_ABORT_UNRECOGNIZED]
           else []⟩ :=
  c7_unrecognized_feature_abort testConfig ackNone 0 s1 0x04 0xAA [] (by decide)


/-- C8: opcode 0xAA has no entry in th sparse mnemonic table, and the
`default:` arm of `cec_log_frame` then evaluates `strlen(cec_message[cmd])`
on the NULL entry — a null-pointer dereference (undefined behaviour),
modelled as `nullDeref` — instead of emitting the `[%x] (undecoded)` line
the claim (and the spec) promises. -/
theorem c8_undecoded_null_deref :
    cec_message 0xAA = none ∧
    cec_log_frame_default 0xAA = DefaultLogLine.nullDeref := by
  decide

/-- C9: the receive buffer is `uint8_t pld[16] = {0x0}` refilled each
iteration, so every byte at an index at or beyond the reported payload
length reads as 0x00; in particular a `SET_SYSTEM_AUDIO_MODE` frame
(opcode 0x72) of length 2, delivered directed or broadcast, deterministically
sets `audio_status` to `false` (`pld[2] == 1` is false on the zero byte). -/
theorem c9_zero_fill :
    (∀ (payload : List Nat) (i : Nat), payload.length ≤ i → (pad16 payload).getD i 0 = 0) ∧
    (∀ (config : CecConfig) (ack : Nat → Bool) (ddc : Nat) (s : CecState) (h : Nat),
      h &&& 0x0f = s.laddr ∨ h &&& 0x0f = 0x0f →
      (cec_step config ack ddc s [h, 0x72]).state.audio_status = false) := by
  constructor
  · exact pad16_getD_zero
  · intro config ack ddc s h hd
    show ((if h &&& 0x0f = s.laddr ∨ h &&& 0x0f = 0x0f then
            (⟨{s with audio_status := (pad16 [h, 0x72]).getD 2 0 == 1}, []⟩ : StepResult)
          else ⟨s, []⟩)).state.audio_status = false
    rw [if_pos hd]
    rfl

/-- C9 witness: both parts of `c9_zero_fill` at the broadcast frame
`[0x0F, 0x72]` of length 2 in the §8 state. -/
theorem c9_zero_fill_witness :
    (pad16 [0x0F, 0x72]).getD 2 0 = 0 ∧
    (cec_step testConfig ackNone 0 s1 [0x0F, 0x72]).state.audio_status = false :=
  ⟨c9_zero_fill.1 [0x0F, 0x72] 2 (by decide),
   c9_zero_fill.2 testConfig ackNone 0 s1 0x0F (by decide)⟩

/-- C10: a directed `MENU_REQUEST` (opcode 0x8D) whose operand is none of
activate (0), deactivate (1) or query (2) leaves the state — in particular
`menu_state` — unchanged, and still sends exactly one `MENU_STATUS` reply
carrying the current `menu_state` to the initiator. -/
theorem c10_menu_request_other (config : CecConfig) (ack : Nat → Bool) (ddc : Nat)
    (s : CecState) (h op2 : Nat)
    (hd : h &&& 0x0f = s.laddr)
    (h0 : op2 ≠ CEC_MENU_ACTIVATE) (h1 : op2 ≠ CEC_MENU_DEACTIVATE)
    (_h2 : op2 ≠ CEC_MENU_QUERY) :
    cec_step config ack ddc s [h, 0x8d, op2] =
      ⟨s, [menu_status s.laddr ((h &&& 0xf0) >>> 4) s.menu_state]⟩ := by
  show (if h &&& 0x0f = s.laddr then
          (⟨{s with menu_state :=
               if (pad16 [h, 0x8d, op2]).getD 2 0 = CEC_MENU_ACTIVATE then true
               else if (pad16 [h, 0x8d, op2]).getD 2 0 = CEC_MENU_DEACTIVATE then false
               else s.menu_state},
            [menu_status s.laddr ((h &&& 0xf0) >>> 4)
               (if (pad16 [h, 0x8d, op2]).getD 2 0 = CEC_MENU_ACTIVATE then true
                else if (pad16 [h, 0x8d, op2]).getD 2 0 = CEC_MENU_DEACTIVATE then false
                else s.menu_state)]⟩ : StepResult)
        else ⟨s, []⟩) =
      ⟨s, [menu_status s.laddr ((h &&& 0xf0) >>> 4) s.menu_state]⟩
  rw [show (pad16 [h, 0x8d, op2]).getD 2 0 = op2 from rfl, if_pos hd, if_neg h0, if_neg h1]

/-- C10 witness: `c10_menu_request_other` at the directed frame
`[0x04, 0x8D, 0x07]` (operand 7 is not a menu request type). -/
theorem c10_menu_request_other_witness :
    cec_step testConfig ackNone 0 s1 [0x04, 0x8d, 0x07] =
      ⟨s1, [menu_status s1.laddr ((0x04 &&& 0xf0) >>> 4) s1.menu_state]⟩ :=
  c10_menu_request_other testConfig ackNone 0 s1 0x04 0x07
    (by decide) (by decide) (by decide) (by decide)

end RT4K
